import Mathlib

/-!
Shallow embedding of the WASAC complaint-data pipeline
(`Data_P.py`: `clean_and_process_data`, and `Dashboard.py`: the filter /
KPI recomputation block), together with theorems settling the frozen
claims about it.

Modelling conventions:
* A parsed timestamp is an integer number of seconds since the epoch
  (`Int`); `pd.to_datetime(..., errors='coerce')` is modelled as a
  parameter `parse : String → Option Int` returning `none` for `NaT`.
* A missing CSV cell (pandas `NaN`) is `none : Option String`.
* `Resolution_Time_Hours` is an `Option ℚ` (`none` models `NaN`).
* Python `str.strip()` is modelled by `strTrim` below, stripping
  whitespace characters from both ends.
-/

namespace Wasac

/-- Characters dropped by Python's `str.strip()` (modelled as ASCII
whitespace, which is what the data contains). -/
def isWs (c : Char) : Bool := c.isWhitespace

/-- Strip leading and trailing whitespace from a list of characters. -/
def trimList (l : List Char) : List Char :=
  ((l.dropWhile isWs).reverse.dropWhile isWs).reverse

/-- Model of Python `str.strip()`. -/
def strTrim (s : String) : String := ⟨trimList s.data⟩

/-- Model of pandas `.astype(str)` on a cell: a missing value (`NaN`)
prints as the literal string `"nan"`; a present string is unchanged. -/
def pyStr (v : Option String) : String :=
  match v with
  | none => "nan"
  | some s => s

/-- Model of `df[col].astype(str).str.strip().replace('nan', 'Unknown')`
(Data_P.py line 64): stringify, strip, then replace a cell exactly equal
to `"nan"` by `"Unknown"`. -/
def cleanString (v : Option String) : String :=
  let s := strTrim (pyStr v)
  if s = "nan" then "Unknown" else s

/-- A raw row after the column rename/selection of Data_P.py lines 23-41:
only the eight selected columns, each cell either missing (`none`) or a
string. -/
structure RawRow where
  complaint_id : Option String
  complaint_type : Option String
  time_received : Option String
  time_resolved : Option String
  assigned_staff : Option String
  status : Option String
  district : Option String
  branch : Option String
deriving DecidableEq

/-- A canonical complaint record as produced by `clean_and_process_data`
(Data_P.py lines 43-64): timestamps parsed (or absent), resolution hours
derived (or absent), designated string fields cleaned.  `complaint_id`
is not in `string_cols` and passes through unchanged. -/
structure Record where
  complaint_id : Option String
  complaint_type : String
  received_at : Option Int
  resolved_at : Option Int
  assigned_staff : String
  status : String
  district : String
  branch : String
  resolution_hours : Option ℚ
deriving DecidableEq

/-- Normalization of one raw row (Data_P.py lines 43-64), parametric in
the timestamp parser `parse` (the model of
`pd.to_datetime(..., format='mixed', errors='coerce')`; `none` is `NaT`).
The duration is `resolved - received` when both parse (else `NaT`),
discarded when negative (line 53), and converted to hours (line 56). -/
def normalizeRow (parse : String → Option Int) (row : RawRow) : Record :=
  let recv : Option Int := row.time_received.bind parse
  let resv : Option Int := row.time_resolved.bind parse
  let diff : Option Int :=
    match recv, resv with
    | some a, some b => some (b - a)
    | _, _ => none
  let kept : Option Int :=
    match diff with
    | some d => if d < 0 then none else some d
    | none => none
  { complaint_id := row.complaint_id
    complaint_type := cleanString row.complaint_type
    received_at := recv
    resolved_at := resv
    assigned_staff := cleanString row.assigned_staff
    status := cleanString row.status
    district := cleanString row.district
    branch := cleanString row.branch
    resolution_hours := kept.map (fun d => (d : ℚ) / 3600) }

/-- Whole-batch normalization: every raw row yields exactly one canonical
record (no row of the frame is ever dropped by lines 43-64). -/
def normalize (parse : String → Option Int) (rows : List RawRow) : List Record :=
  rows.map (normalizeRow parse)

/-- The relation between a raw cell and its cleaned value that the
amended string-field invariant asserts: missing becomes `"Unknown"`, the
result carries no leading or trailing whitespace, and it is empty only
when the raw cell was a present, all-whitespace string. -/
def trimmedOrUnknown (v : Option String) (s : String) : Prop :=
  (v = none → s = "Unknown") ∧
  (∀ c, s.data.head? = some c → ¬ c.isWhitespace) ∧
  (∀ c, s.data.getLast? = some c → ¬ c.isWhitespace) ∧
  (s = "" → ∃ w, v = some w ∧ strTrim w = "")

/-- Calendar date of a timestamp (`.dt.date` / `.normalize()`): the day
number since the epoch, flooring toward minus infinity as pandas does. -/
def dateOf (t : Int) : Int := Int.fdiv t 86400

/-- The sidebar filter criteria of Dashboard.py lines 120-164: a set of
allowed districts, branches and complaint types, and an inclusive date
range on the received date. -/
structure Criteria where
  districts : List String
  branches : List String
  types : List String
  start_date : Int
  end_date : Int
deriving DecidableEq

/-- The row predicate of the filter expression Dashboard.py lines 168-174.
A `NaT` received timestamp fails both date comparisons, so such a row is
excluded. -/
def matchesCriteria (c : Criteria) (r : Record) : Bool :=
  c.districts.contains r.district &&
  c.branches.contains r.branch &&
  c.types.contains r.complaint_type &&
  (match r.received_at with
   | some t => decide (c.start_date ≤ dateOf t) && decide (dateOf t ≤ c.end_date)
   | none => false)

/-- Model of `df_filtered` (Dashboard.py lines 168-174): keep the rows
satisfying every criterion, in input order. -/
def applyFilters (rows : List Record) (c : Criteria) : List Record :=
  rows.filter (matchesCriteria c)

/-- The criteria produced by the sidebar defaults (Dashboard.py lines
121-164): every district, branch and type value present in the data, and
the date range from the earliest to the latest received date.  Sorting of
the option lists is omitted as it does not affect membership; the
fallback date `0` is only reached when no received timestamp is present
(the dashboard then falls back to fixed constants, lines 147-148). -/
def matchAllCriteria (rows : List Record) : Criteria :=
  { districts := (rows.map Record.district).dedup
    branches := (rows.map Record.branch).dedup
    types := (rows.map Record.complaint_type).dedup
    start_date := (((rows.filterMap Record.received_at).map dateOf).min?).getD 0
    end_date := (((rows.filterMap Record.received_at).map dateOf).max?).getD 0 }

/-- The summary statistics recomputed from the filtered frame
(Dashboard.py lines 199-212 and the open-complaints metric of line 247). -/
structure Summary where
  total_count : Nat
  closed_count : Nat
  avg_resolution_hours : Option ℚ
  resolution_rate_pct : ℚ
  avg_daily_rate : ℚ
  open_count : Nat
deriving DecidableEq

/-- Model of the KPI block (Dashboard.py lines 199-212, 247):
`total = len(df)`, closed subset by `Complaint_Status == 'Closed'`,
average resolution hours as the pandas `mean` (skipping `NaN`, `NaN` when
nothing remains), resolution rate guarded by `total > 0`, and the average
daily rate over the inclusive day span of the received timestamps (0 for
an empty frame; pandas `min`/`max` skip `NaT`, and when every timestamp
is `NaT` the `NaN` day count fails the `> 0` guard, giving 0). -/
def summarize (rows : List Record) : Summary :=
  let total := rows.length
  let closed := rows.filter (fun r => r.status == "Closed")
  let vals := closed.filterMap Record.resolution_hours
  let received := rows.filterMap Record.received_at
  { total_count := total
    closed_count := closed.length
    avg_resolution_hours :=
      if vals.isEmpty then none else some (vals.sum / (vals.length : ℚ))
    resolution_rate_pct :=
      if 0 < total then ((closed.length : ℚ) / (total : ℚ)) * 100 else 0
    avg_daily_rate :=
      if rows.isEmpty then 0
      else
        match received.min?, received.max? with
        | some a, some b =>
            let days : Int := dateOf b - dateOf a + 1
            if 0 < days then (total : ℚ) / (days : ℚ) else 0
        | _, _ => 0
    open_count :=
      (rows.filter (fun r => r.status == "Pending" || r.status == "Open")).length }

/-- One line of the canonical flat file `processed_complaint_data.csv`
(Data_P.py lines 68-73).  A timestamp cell holds either the empty string
(absent) or the `%Y-%m-%d %H:%M:%S` rendering of the timestamp; since
that rendering is injective and parsed back exactly, the cell is modelled
as `Option Int` (`none` for the empty cell).  Likewise the
`Resolution_Time_Hours` cell is `Option ℚ`.  String cells hold their
literal text; `to_csv` writes a missing value as the empty cell. -/
structure CsvRow where
  cid : String
  ctype : String
  received : Option Int
  resolved : Option Int
  staff : String
  status : String
  district : String
  branch : String
  hours : Option ℚ
deriving DecidableEq

/-- Serialization of a canonical record to one CSV line (Data_P.py lines
68-73): `strftime` then `fillna('')` for the timestamp columns, plain
`to_csv` for the rest (a missing `Complaint_ID` becomes an empty cell). -/
def serializeRecord (r : Record) : CsvRow :=
  { cid := r.complaint_id.getD ""
    ctype := r.complaint_type
    received := r.received_at
    resolved := r.resolved_at
    staff := r.assigned_staff
    status := r.status
    district := r.district
    branch := r.branch
    hours := r.resolution_hours }

/-- The default NA sentinel strings of `pd.read_csv` (the dashboard
passes no `na_values`/`keep_default_na`, so these cells all read back as
`NaN`). -/
def naSentinels : List String :=
  ["", "#N/A", "#N/A N/A", "#NA", "-1.#IND", "-1.#QNAN", "-NaN", "-nan",
   "1.#IND", "1.#QNAN", "<NA>", "N/A", "NA", "NULL", "NaN", "None",
   "n/a", "nan", "null"]

/-- How `pd.read_csv` decodes a string cell with default settings: any
cell equal to one of the default NA sentinels (the empty cell included)
is a missing value (`NaN`), anything else is the string itself. -/
def decodeStr (s : String) : Option String :=
  if s ∈ naSentinels then none else some s

/-- A record as it exists in the dashboard after `load_processed_data`
(Dashboard.py lines 46-49): string columns as read by `read_csv` (so a
missing cell is `none`), `Time_Complaint_Received` re-parsed to a
timestamp with `errors='coerce'`, `Time_Complaint_Resolved` left as its
cell content, `Resolution_Time_Hours` read as a float. -/
structure LoadedRecord where
  cid : Option String
  ctype : Option String
  received : Option Int
  resolved : Option Int
  staff : Option String
  status : Option String
  district : Option String
  branch : Option String
  hours : Option ℚ
deriving DecidableEq

/-- Model of `load_processed_data` on one CSV line (Dashboard.py lines
46-49): `read_csv` decodes each string cell, and `pd.to_datetime` on the
received column maps an empty cell to `NaT` and a rendered timestamp back
to itself. -/
def loadRow (row : CsvRow) : LoadedRecord :=
  { cid := decodeStr row.cid
    ctype := decodeStr row.ctype
    received := row.received
    resolved := row.resolved
    staff := decodeStr row.staff
    status := decodeStr row.status
    district := decodeStr row.district
    branch := decodeStr row.branch
    hours := row.hours }

/-- The loaded form a canonical record is expected to round-trip to:
every field with its original content (present strings wrapped in
`some`). -/
def toLoaded (r : Record) : LoadedRecord :=
  { cid := r.complaint_id
    ctype := some r.complaint_type
    received := r.received_at
    resolved := r.resolved_at
    staff := some r.assigned_staff
    status := some r.status
    district := some r.district
    branch := some r.branch
    hours := r.resolution_hours }

/-! Concrete data used by witnesses and counterexamples. -/

/-- A concrete timestamp parser standing in for `pd.to_datetime` in
witnesses: a small lookup of cells it accepts, everything else is
unparseable (`NaT`). -/
def exParse : String → Option Int := fun s =>
  if s = "40" then some 40
  else if s = "100" then some 100
  else if s = "0" then some 0
  else if s = "7200" then some 7200
  else none

/-- A raw row whose resolved timestamp is earlier than its received one. -/
def rawNeg : RawRow :=
  ⟨some "1", some "Billing", some "100", some "40", some "Alice", some "Closed",
    some "Gasabo", some "Kigali"⟩

/-- A raw row whose district cell is whitespace only. -/
def rawWs : RawRow :=
  ⟨some "2", some "Billing", some "0", some "7200", some "Alice", some "Closed",
    some "   ", some "Kigali"⟩

/-- A raw row with every cell missing. -/
def rawNone : RawRow := ⟨none, none, none, none, none, none, none, none⟩

/-- A raw row whose received cell does not parse as a timestamp. -/
def rawBad : RawRow :=
  ⟨some "3", some "Billing", some "not-a-date", some "40", some "Alice",
    some "Open", some "Gasabo", some "Kigali"⟩

/-- A raw row whose district cell is the literal text `" nan "`. -/
def rawNan : RawRow :=
  ⟨some "4", some "Billing", some "0", some "7200", some "Alice", some "Closed",
    some " nan ", some "Kigali"⟩

/-- A closed canonical record with 2 resolution hours. -/
def recClosedA : Record :=
  ⟨some "1", "Billing", some 0, some 7200, "Alice", "Closed", "Gasabo", "Kigali", some 2⟩

/-- A closed canonical record with 4 resolution hours. -/
def recClosedB : Record :=
  ⟨some "2", "Billing", some 3600, some 18000, "Alice", "Closed", "Gasabo", "Kigali", some 4⟩

/-- An open canonical record. -/
def recOpen : Record :=
  ⟨some "3", "Billing", some 0, none, "Alice", "Open", "Gasabo", "Kigali", none⟩

/-- A canonical record whose received timestamp is absent (its raw date
failed to parse). -/
def recNoReceived : Record :=
  ⟨some "4", "Billing", none, none, "Alice", "Open", "Gasabo", "Kigali", none⟩

/-- A canonical record carrying every absent marker at once. -/
def recAbsent : Record :=
  ⟨none, "Unknown", none, none, "Unknown", "Unknown", "Unknown", "Unknown", none⟩

/-- A filter criteria instance used by witnesses. -/
def exCriteria : Criteria := ⟨["Gasabo"], ["Kigali"], ["Billing"], 0, 0⟩

/-! Helper lemmas about whitespace trimming. -/

theorem head?_dropWhile_ws {α : Type} (p : α → Bool) :
    ∀ l : List α, ∀ c, (l.dropWhile p).head? = some c → p c = false := by
  intro l
  induction l with
  | nil => intro c h; simp [List.dropWhile] at h
  | cons a as ih =>
      intro c h
      rw [List.dropWhile_cons] at h
      by_cases hp : p a
      · exact ih c (by simpa [hp] using h)
      · rw [if_neg hp] at h
        simp only [List.head?_cons, Option.some.injEq] at h
        subst h
        exact Bool.eq_false_iff.mpr hp

theorem getLast?_dropWhile_ws {α : Type} (p : α → Bool) :
    ∀ l : List α, l.dropWhile p ≠ [] → (l.dropWhile p).getLast? = l.getLast? := by
  intro l
  induction l with
  | nil => intro h; simp [List.dropWhile] at h
  | cons a as ih =>
      intro h
      rw [List.dropWhile_cons] at h ⊢
      by_cases hp : p a
      · simp only [hp, ite_true] at h ⊢
        have has : as ≠ [] := by
          intro h0
          rw [h0] at h
          simp [List.dropWhile] at h
        obtain ⟨b, bs, rfl⟩ := List.exists_cons_of_ne_nil has
        rw [List.getLast?_cons_cons]
        exact ih h
      · simp [hp]

theorem trimList_head? (l : List Char) (c : Char)
    (h : (trimList l).head? = some c) : isWs c = false := by
  unfold trimList at h
  rw [List.head?_reverse] at h
  have hne : (l.dropWhile isWs).reverse.dropWhile isWs ≠ [] := by
    intro h0
    rw [h0] at h
    simp at h
  rw [getLast?_dropWhile_ws isWs _ hne, List.getLast?_reverse] at h
  exact head?_dropWhile_ws isWs l c h

theorem trimList_getLast? (l : List Char) (c : Char)
    (h : (trimList l).getLast? = some c) : isWs c = false := by
  unfold trimList at h
  rw [List.getLast?_reverse] at h
  exact head?_dropWhile_ws isWs _ c h

/-- The cleaning step satisfies the amended string-field invariant. -/
theorem cleanString_spec (v : Option String) : trimmedOrUnknown v (cleanString v) := by
  refine ⟨?_, ?_, ?_, ?_⟩
  · rintro rfl
    decide
  · intro c h
    unfold cleanString at h
    by_cases hs : strTrim (pyStr v) = "nan"
    · rw [if_pos hs] at h
      simp only [List.head?_cons, Option.some.injEq] at h
      subst h
      decide
    · rw [if_neg hs] at h
      have := trimList_head? (pyStr v).data c h
      simpa [isWs] using this
  · intro c h
    unfold cleanString at h
    by_cases hs : strTrim (pyStr v) = "nan"
    · rw [if_pos hs] at h
      have hcn : 'n' = c := by simpa using h
      subst hcn
      decide
    · rw [if_neg hs] at h
      have := trimList_getLast? (pyStr v).data c h
      simpa [isWs] using this
  · intro h0
    unfold cleanString at h0
    by_cases hs : strTrim (pyStr v) = "nan"
    · rw [if_pos hs] at h0
      exact absurd h0 (by decide)
    · rw [if_neg hs] at h0
      cases v with
      | none => exact absurd (show strTrim (pyStr none) = "nan" from by decide) hs
      | some w => exact ⟨w, rfl, h0⟩

/-- C1: whenever both timestamps of a raw row parse and the resolved
timestamp is strictly earlier than the received one, the normalizer marks
`resolution_hours` absent (Data_P.py line 53); and no canonical record it
produces ever carries a negative `resolution_hours`. -/
theorem resolution_hours_absent_on_negative_nonneg
    (parse : String → Option Int) (row : RawRow) :
    (∀ t1 t2, row.time_received.bind parse = some t1 →
        row.time_resolved.bind parse = some t2 → t2 < t1 →
        (normalizeRow parse row).resolution_hours = none) ∧
    (∀ q, (normalizeRow parse row).resolution_hours = some q → 0 ≤ q) := by
  constructor
  · intro t1 t2 h1 h2 hlt
    have hneg : t2 - t1 < 0 := by omega
    simp [normalizeRow, h1, h2, hneg]
  · intro q hq
    cases h1 : row.time_received.bind parse with
    | none => simp [normalizeRow, h1] at hq
    | some a =>
        cases h2 : row.time_resolved.bind parse with
        | none => simp [normalizeRow, h1, h2] at hq
        | some b =>
            by_cases hd : b - a < 0
            · simp [normalizeRow, h1, h2, hd] at hq
            · simp [normalizeRow, h1, h2, hd] at hq
              have hint : (0 : Int) ≤ b - a := not_lt.mp hd
              have hba : (0 : ℚ) ≤ (b : ℚ) - (a : ℚ) := by exact_mod_cast hint
              rw [← hq]
              exact div_nonneg hba (by norm_num)

/-- C1 witness: a concrete row resolved 60 seconds before it was
received yields an absent `resolution_hours`. -/
theorem resolution_hours_absent_on_negative_nonneg_witness :
    (normalizeRow exParse rawNeg).resolution_hours = none :=
  (resolution_hours_absent_on_negative_nonneg exParse rawNeg).1 100 40
    (by decide) (by decide) (by decide)

/-- C2 counterexample: a raw row whose district cell is whitespace only
is normalized to the empty string, not to `"Unknown"` and not to a
non-empty trimmed string, refuting the claim that a designated string
field is never empty. -/
theorem string_field_empty_counterexample :
    (normalizeRow exParse rawWs).district = "" ∧
      (normalizeRow exParse rawWs).district ≠ "Unknown" := by
  decide

/-- C2 (amended): every designated string field of a canonical record is
never a raw missing value; it is `"Unknown"` whenever the raw cell was
missing, it carries no leading or trailing whitespace, and it is the
empty string only when the raw cell was a present all-whitespace
string. -/
theorem string_fields_trimmed_or_unknown
    (parse : String → Option Int) (row : RawRow) :
    trimmedOrUnknown row.complaint_type (normalizeRow parse row).complaint_type ∧
    trimmedOrUnknown row.district (normalizeRow parse row).district ∧
    trimmedOrUnknown row.assigned_staff (normalizeRow parse row).assigned_staff ∧
    trimmedOrUnknown row.status (normalizeRow parse row).status ∧
    trimmedOrUnknown row.branch (normalizeRow parse row).branch :=
  ⟨cleanString_spec _, cleanString_spec _, cleanString_spec _,
    cleanString_spec _, cleanString_spec _⟩

/-- C2 witness: the all-missing raw row normalizes to `"Unknown"` in the
district field. -/
theorem string_fields_trimmed_or_unknown_witness :
    (normalizeRow exParse rawNone).district = "Unknown" :=
  (string_fields_trimmed_or_unknown exParse rawNone).2.1.1 rfl

/-- C6: normalization maps each raw row to exactly one canonical record
(the batch size is preserved however many timestamps fail to parse), and
a timestamp cell the parser rejects merely becomes an absent marker in
the retained record. -/
theorem unparseable_timestamp_coerced_row_retained
    (parse : String → Option Int) (rows : List RawRow) (row : RawRow) :
    (normalize parse rows).length = rows.length ∧
    (∀ s, row.time_received = some s → parse s = none →
        (normalizeRow parse row).received_at = none) ∧
    (∀ s, row.time_resolved = some s → parse s = none →
        (normalizeRow parse row).resolved_at = none) := by
  refine ⟨List.length_map _ _, ?_, ?_⟩
  · intro s hs hp
    simp [normalizeRow, hs, hp]
  · intro s hs hp
    simp [normalizeRow, hs, hp]

/-- C6 witness: a concrete unparseable received cell becomes an absent
marker while the one-row batch keeps its length. -/
theorem unparseable_timestamp_coerced_row_retained_witness :
    (normalizeRow exParse rawBad).received_at = none :=
  (unparseable_timestamp_coerced_row_retained exParse [rawBad] rawBad).2.1
    "not-a-date" rfl (by decide)

/-- C10: for each of the five designated string fields, a present cell
whose trimmed text is exactly `"nan"` is replaced by `"Unknown"`, making
it indistinguishable in the canonical record from that cell being
missing. -/
theorem nan_text_indistinguishable_from_missing
    (parse : String → Option Int) (row : RawRow) (s : String)
    (hnan : strTrim s = "nan") :
    (row.complaint_type = some s →
      (normalizeRow parse row).complaint_type = "Unknown" ∧
      (normalizeRow parse row).complaint_type =
        (normalizeRow parse { row with complaint_type := none }).complaint_type) ∧
    (row.district = some s →
      (normalizeRow parse row).district = "Unknown" ∧
      (normalizeRow parse row).district =
        (normalizeRow parse { row with district := none }).district) ∧
    (row.assigned_staff = some s →
      (normalizeRow parse row).assigned_staff = "Unknown" ∧
      (normalizeRow parse row).assigned_staff =
        (normalizeRow parse { row with assigned_staff := none }).assigned_staff) ∧
    (row.status = some s →
      (normalizeRow parse row).status = "Unknown" ∧
      (normalizeRow parse row).status =
        (normalizeRow parse { row with status := none }).status) ∧
    (row.branch = some s →
      (normalizeRow parse row).branch = "Unknown" ∧
      (normalizeRow parse row).branch =
        (normalizeRow parse { row with branch := none }).branch) := by
  have hsome : cleanString (some s) = "Unknown" := by
    simp [cleanString, pyStr, hnan]
  have hnone : cleanString none = "Unknown" := by decide
  refine ⟨?_, ?_, ?_, ?_, ?_⟩ <;> intro h <;>
    exact ⟨by simp [normalizeRow, h, hsome],
      by simp [normalizeRow, h, hsome, hnone]⟩

/-- C10 witness: the literal district cell `" nan "` comes out as
`"Unknown"`. -/
theorem nan_text_indistinguishable_from_missing_witness :
    (normalizeRow exParse rawNan).district = "Unknown" :=
  ((nan_text_indistinguishable_from_missing exParse rawNan " nan "
    (by decide)).2.1 rfl).1

/-- Characterization of the filter predicate of Dashboard.py lines
168-174. -/
theorem matchesCriteria_iff (c : Criteria) (r : Record) :
    matchesCriteria c r = true ↔
      r.district ∈ c.districts ∧ r.branch ∈ c.branches ∧
        r.complaint_type ∈ c.types ∧
        ∃ t, r.received_at = some t ∧
          c.start_date ≤ dateOf t ∧ dateOf t ≤ c.end_date := by
  cases hr : r.received_at with
  | none => simp [matchesCriteria, hr]
  | some t => simp [matchesCriteria, hr, and_assoc]

/-- C4: a record is in the filtered result exactly when it is an input
row whose district, branch and complaint type pass the set constraints
and whose received date is present and inside the inclusive range; in
particular a record with an absent received timestamp is always
excluded. -/
theorem mem_applyFilters_iff (rows : List Record) (c : Criteria) (r : Record) :
    (r ∈ applyFilters rows c ↔
      r ∈ rows ∧ r.district ∈ c.districts ∧ r.branch ∈ c.branches ∧
        r.complaint_type ∈ c.types ∧
        ∃ t, r.received_at = some t ∧
          c.start_date ≤ dateOf t ∧ dateOf t ≤ c.end_date) ∧
    (r.received_at = none → r ∉ applyFilters rows c) := by
  have hmem : r ∈ applyFilters rows c ↔
      r ∈ rows ∧ (r.district ∈ c.districts ∧ r.branch ∈ c.branches ∧
        r.complaint_type ∈ c.types ∧
        ∃ t, r.received_at = some t ∧
          c.start_date ≤ dateOf t ∧ dateOf t ≤ c.end_date) := by
    rw [applyFilters, List.mem_filter, matchesCriteria_iff]
  constructor
  · rw [hmem]
  · intro hnone hin
    obtain ⟨-, -, -, -, t, ht, -⟩ := hmem.mp hin
    rw [hnone] at ht
    exact Option.noConfusion ht

/-- C4 witness: the record with an absent received timestamp is excluded
even though its district, branch and type all pass. -/
theorem mem_applyFilters_iff_witness :
    recNoReceived ∉ applyFilters [recNoReceived] exCriteria :=
  (mem_applyFilters_iff [recNoReceived] exCriteria recNoReceived).2 rfl

/-- C3 counterexample: with one record whose received timestamp is
absent, the dashboard-default criteria (all districts, branches and
types, full date span) are not a no-op — the absent-received record is
dropped, so the summaries differ. -/
theorem summarize_matchAll_counterexample :
    summarize (applyFilters [recClosedA, recNoReceived]
        (matchAllCriteria [recClosedA, recNoReceived])) ≠
      summarize [recClosedA, recNoReceived] := by
  decide

/-- C3 (amended): for criteria that match every row — every row's
district, branch and type are in the respective sets and every row's
received timestamp is present with date inside the range — filtering is
a no-op and the summary statistics are unchanged. -/
theorem summarize_applyFilters_all_match (rows : List Record) (c : Criteria)
    (hAll : ∀ r ∈ rows, r.district ∈ c.districts ∧ r.branch ∈ c.branches ∧
        r.complaint_type ∈ c.types ∧
        ∃ t, r.received_at = some t ∧
          c.start_date ≤ dateOf t ∧ dateOf t ≤ c.end_date) :
    summarize (applyFilters rows c) = summarize rows := by
  have hfix : applyFilters rows c = rows := by
    rw [applyFilters, List.filter_eq_self]
    intro r hr
    rw [matchesCriteria_iff]
    exact hAll r hr
  rw [hfix]

/-- C3 witness: a concrete one-row dataset matched in full by a concrete
criteria instance keeps its summary unchanged under filtering. -/
theorem summarize_applyFilters_all_match_witness :
    summarize (applyFilters [recClosedA] exCriteria) = summarize [recClosedA] :=
  summarize_applyFilters_all_match [recClosedA] exCriteria (by
    intro r hr
    rw [List.mem_singleton] at hr
    subst hr
    exact ⟨by decide, by decide, by decide, 0, rfl, by decide, by decide⟩)

/-- C5 counterexample: the canonical record produced from a
whitespace-only district cell has an empty district; its CSV cell is
empty, which reads back as a missing value, so the round trip does not
return the original record. -/
theorem roundtrip_counterexample :
    loadRow (serializeRecord (normalizeRow exParse rawWs)) ≠
      toLoaded (normalizeRow exParse rawWs) := by
  decide

/-- C5 (amended): serialization to the canonical flat file followed by
the dashboard's load is the identity on every canonical record — absent
timestamp and duration markers included — provided no string field (and
no present complaint id) is one of `read_csv`'s default NA sentinels;
such a cell, the empty string included, is read back as missing. -/
theorem loadRow_serializeRecord_roundtrip (r : Record)
    (h1 : r.complaint_type ∉ naSentinels) (h2 : r.district ∉ naSentinels)
    (h3 : r.assigned_staff ∉ naSentinels) (h4 : r.status ∉ naSentinels)
    (h5 : r.branch ∉ naSentinels)
    (h6 : ∀ s, r.complaint_id = some s → s ∉ naSentinels) :
    loadRow (serializeRecord r) = toLoaded r := by
  have hcid : (if r.complaint_id.getD "" ∈ naSentinels then (none : Option String)
      else some (r.complaint_id.getD "")) = r.complaint_id := by
    cases hc : r.complaint_id with
    | none => simp [show ("" : String) ∈ naSentinels from by decide]
    | some s =>
        have hs : s ∉ naSentinels := h6 s hc
        simp [hs]
  simp [loadRow, serializeRecord, toLoaded, decodeStr, h1, h2, h3, h4, h5, hcid]

/-- C5 witness: the record carrying every absent marker round-trips. -/
theorem loadRow_serializeRecord_roundtrip_witness :
    loadRow (serializeRecord recAbsent) = toLoaded recAbsent :=
  loadRow_serializeRecord_roundtrip recAbsent (by decide) (by decide)
    (by decide) (by decide) (by decide)
    (fun s h => Option.noConfusion h)

/-- The resolution-hour values surviving into the pandas `mean` are empty
exactly when every closed row has an absent duration. -/
theorem closedVals_nil_iff (rows : List Record) :
    ((rows.filter fun r => r.status == "Closed").filterMap
        Record.resolution_hours) = [] ↔
      ∀ r ∈ rows, r.status = "Closed" → r.resolution_hours = none := by
  rw [List.filterMap_eq_nil_iff]
  constructor
  · intro h r hr hs
    exact h r (List.mem_filter.mpr ⟨hr, by simp [hs]⟩)
  · intro h r hr
    have hm := List.mem_filter.mp hr
    exact h r hm.1 (by simpa using hm.2)

/-- C7: the average resolution time is the arithmetic mean of the
present `resolution_hours` over the `status == "Closed"` subset, and it
is the absent marker exactly when that subset is empty or every one of
its durations is absent. -/
theorem avg_resolution_hours_spec (rows : List Record) :
    ((summarize rows).avg_resolution_hours = none ↔
      ∀ r ∈ rows, r.status = "Closed" → r.resolution_hours = none) ∧
    (∀ q, (summarize rows).avg_resolution_hours = some q →
      ((rows.filter fun r => r.status == "Closed").filterMap
          Record.resolution_hours) ≠ [] ∧
        q * ((((rows.filter fun r => r.status == "Closed").filterMap
            Record.resolution_hours)).length : ℚ) =
          (((rows.filter fun r => r.status == "Closed").filterMap
            Record.resolution_hours)).sum) := by
  have havg : (summarize rows).avg_resolution_hours =
      (if ((rows.filter fun r => r.status == "Closed").filterMap
            Record.resolution_hours).isEmpty
       then none
       else some ((((rows.filter fun r => r.status == "Closed").filterMap
           Record.resolution_hours)).sum /
         (((((rows.filter fun r => r.status == "Closed").filterMap
           Record.resolution_hours))).length : ℚ))) := rfl
  constructor
  · rw [havg]
    by_cases hv : ((rows.filter fun r => r.status == "Closed").filterMap
        Record.resolution_hours).isEmpty
    · rw [if_pos hv]
      simp only [true_iff]
      exact (closedVals_nil_iff rows).mp (by simpa using hv)
    · rw [if_neg hv]
      constructor
      · intro h
        exact (Option.some_ne_none _ h).elim
      · intro hAll
        exact absurd (by simp [(closedVals_nil_iff rows).mpr hAll]) hv
  · intro q hq
    rw [havg] at hq
    by_cases hv : ((rows.filter fun r => r.status == "Closed").filterMap
        Record.resolution_hours).isEmpty
    · rw [if_pos hv] at hq
      exact Option.noConfusion hq
    · rw [if_neg hv] at hq
      have hne : ((rows.filter fun r => r.status == "Closed").filterMap
          Record.resolution_hours) ≠ [] := by
        intro h0
        exact hv (by simp [h0])
      refine ⟨hne, ?_⟩
      have hq' := Option.some.inj hq
      have hlen : ((((rows.filter fun r => r.status == "Closed").filterMap
          Record.resolution_hours)).length : ℚ) ≠ 0 := by
        exact_mod_cast fun h0 => hne (List.length_eq_zero.mp (by exact_mod_cast h0))
      rw [← hq']
      exact div_mul_cancel₀ _ hlen

/-- C7 witness: scenario D — closed durations 2 and 4 plus one open row
give a mean of 3 over the two present values. -/
theorem avg_resolution_hours_spec_witness :
    (([recClosedA, recClosedB, recOpen].filter fun r =>
        r.status == "Closed").filterMap Record.resolution_hours) ≠ [] ∧
      (3 : ℚ) * ((((([recClosedA, recClosedB, recOpen].filter fun r =>
          r.status == "Closed").filterMap Record.resolution_hours))).length : ℚ) =
        ((([recClosedA, recClosedB, recOpen].filter fun r =>
          r.status == "Closed").filterMap Record.resolution_hours)).sum :=
  (avg_resolution_hours_spec [recClosedA, recClosedB, recOpen]).2 3 (by
    have havg : (summarize [recClosedA, recClosedB, recOpen]).avg_resolution_hours =
        (if (([recClosedA, recClosedB, recOpen].filter fun r =>
              r.status == "Closed").filterMap Record.resolution_hours).isEmpty
         then none
         else some (((([recClosedA, recClosedB, recOpen].filter fun r =>
             r.status == "Closed").filterMap Record.resolution_hours)).sum /
           (((((([recClosedA, recClosedB, recOpen].filter fun r =>
             r.status == "Closed").filterMap Record.resolution_hours)))).length : ℚ))) := rfl
    have hvals : (([recClosedA, recClosedB, recOpen].filter fun r =>
        r.status == "Closed").filterMap Record.resolution_hours) = [(2 : ℚ), 4] := by
      decide
    rw [havg, hvals]
    norm_num)

/-- C8: the empty filtered set produces the defined degenerate summary —
zero total, absent average resolution time, zero resolution rate, zero
daily rate — with no failure. -/
theorem summarize_empty :
    summarize ([] : List Record) =
      { total_count := 0, closed_count := 0, avg_resolution_hours := none,
        resolution_rate_pct := 0, avg_daily_rate := 0, open_count := 0 } := by
  rfl

end Wasac
